import Mathlib

/-!
Verification of the `TodoList` data layer of `src/pythonproject1.py`
(a single-user task/reminder manager persisting a flat list of task
records to a JSON file on every mutation).

The embedding is shallow:
* Python `datetime.date` / `datetime.datetime` values become the `Date` /
  `DateTime` structures below; `strftime` with the formats `%Y-%m-%d`,
  `%Y-%m-%d %H:%M` becomes `Date.isoFormat` / `DateTime.fmt`, and
  `strptime` with the same formats becomes `parseDate` / `parseDateTime`
  (fixed-width, zero-padded — exactly the shape `strftime` emits).
* The ambient clock (`date.today()` / `datetime.now()`) is passed as an
  explicit parameter to each operation that reads it.
* The file system is abstracted to `FileState`: the file is missing,
  holds text that fails JSON parsing, or holds a parsed JSON value.
* Each method of the Python class becomes a function on `Store`
  (the `todos` list plus the persisted file); methods that mutate
  return the new `Store`, queries return their result plus the store.
-/

namespace TodoProj

/-- A calendar date, as carried by Python `datetime.date`. -/
structure Date where
  year : Nat
  month : Nat
  day : Nat
deriving DecidableEq, Repr

/-- A date plus a time-of-day down to minutes, as carried by the
`%Y-%m-%d %H:%M` reminder format. -/
structure DateTime where
  year : Nat
  month : Nat
  day : Nat
  hour : Nat
  minute : Nat
deriving DecidableEq, Repr

/-- Gregorian leap-year test. -/
def leapYear (y : Nat) : Bool :=
  y % 4 == 0 && (y % 100 != 0 || y % 400 == 0)

/-- Number of days in month `m` of year `y`. -/
def daysInMonth (y m : Nat) : Nat :=
  if m == 2 then (if leapYear y then 29 else 28)
  else if m == 4 || m == 6 || m == 9 || m == 11 then 30
  else 31

/-- The range checks Python's `datetime` constructor performs
(`MINYEAR = 1`, `MAXYEAR = 9999`, month and day within range). -/
def validDate (y m d : Nat) : Bool :=
  decide (1 ≤ y ∧ y ≤ 9999 ∧ 1 ≤ m ∧ m ≤ 12 ∧ 1 ≤ d ∧ d ≤ daysInMonth y m)

/-- Chronological comparison of dates (Python's `date.__le__`):
lexicographic on (year, month, day). -/
def Date.ble (a b : Date) : Bool :=
  decide (a.year < b.year ∨ (a.year = b.year ∧
    (a.month < b.month ∨ (a.month = b.month ∧ a.day ≤ b.day))))

/-- Strict chronological comparison of dates (Python's `date.__lt__`). -/
def Date.blt (a b : Date) : Bool :=
  decide (a.year < b.year ∨ (a.year = b.year ∧
    (a.month < b.month ∨ (a.month = b.month ∧ a.day < b.day))))

/-- Chronological comparison of date-times (Python's `datetime.__le__`). -/
def DateTime.ble (a b : DateTime) : Bool :=
  decide (a.year < b.year ∨ (a.year = b.year ∧
    (a.month < b.month ∨ (a.month = b.month ∧
      (a.day < b.day ∨ (a.day = b.day ∧
        (a.hour < b.hour ∨ (a.hour = b.hour ∧ a.minute ≤ b.minute))))))))

/-- The next calendar day (with month and year rollover). -/
def Date.succ (d : Date) : Date :=
  if d.day < daysInMonth d.year d.month then ⟨d.year, d.month, d.day + 1⟩
  else if d.month < 12 then ⟨d.year, d.month + 1, 1⟩
  else ⟨d.year + 1, 1, 1⟩

/-- `d + timedelta(days = n)`: advance `n` calendar days. -/
def Date.addDays (d : Date) : Nat → Date
  | 0 => d
  | n + 1 => (Date.addDays d n).succ

/-- Two-digit zero-padded decimal rendering (`%m`, `%d`, `%H`, `%M`). -/
def pad2 (n : Nat) : List Char :=
  [Nat.digitChar (n / 10 % 10), Nat.digitChar (n % 10)]

/-- Four-digit zero-padded decimal rendering (`%Y`). -/
def pad4 (n : Nat) : List Char :=
  [Nat.digitChar (n / 1000 % 10), Nat.digitChar (n / 100 % 10),
   Nat.digitChar (n / 10 % 10), Nat.digitChar (n % 10)]

/-- `d.strftime("%Y-%m-%d")`. -/
def Date.isoFormat (d : Date) : String :=
  ⟨pad4 d.year ++ '-' :: pad2 d.month ++ '-' :: pad2 d.day⟩

/-- `t.strftime("%Y-%m-%d %H:%M")`. -/
def DateTime.fmt (t : DateTime) : String :=
  ⟨pad4 t.year ++ '-' :: pad2 t.month ++ '-' :: pad2 t.day ++
    ' ' :: pad2 t.hour ++ ':' :: pad2 t.minute⟩

/-- Numeric value of a decimal digit character. -/
def digitVal (c : Char) : Nat := c.toNat - 48

/-- `datetime.strptime(s, "%Y-%m-%d").date()` on the zero-padded shape
that `strftime` emits: ten characters `YYYY-MM-DD`, with the range
checks the `datetime` constructor performs. -/
def parseDate (s : String) : Option Date :=
  match s.data with
  | [y1, y2, y3, y4, c1, m1, m2, c2, d1, d2] =>
    if y1.isDigit && y2.isDigit && y3.isDigit && y4.isDigit &&
       (c1 == '-') && m1.isDigit && m2.isDigit && (c2 == '-') &&
       d1.isDigit && d2.isDigit then
      let y := digitVal y1 * 1000 + digitVal y2 * 100 + digitVal y3 * 10 + digitVal y4
      let m := digitVal m1 * 10 + digitVal m2
      let d := digitVal d1 * 10 + digitVal d2
      if validDate y m d then some ⟨y, m, d⟩ else none
    else none
  | _ => none

/-- `datetime.strptime(s, "%Y-%m-%d %H:%M")` on the zero-padded shape
that `strftime` emits: sixteen characters `YYYY-MM-DD HH:MM`. -/
def parseDateTime (s : String) : Option DateTime :=
  match s.data with
  | [y1, y2, y3, y4, c1, m1, m2, c2, d1, d2, c3, h1, h2, c4, n1, n2] =>
    if y1.isDigit && y2.isDigit && y3.isDigit && y4.isDigit &&
       (c1 == '-') && m1.isDigit && m2.isDigit && (c2 == '-') &&
       d1.isDigit && d2.isDigit && (c3 == ' ') &&
       h1.isDigit && h2.isDigit && (c4 == ':') && n1.isDigit && n2.isDigit then
      let y := digitVal y1 * 1000 + digitVal y2 * 100 + digitVal y3 * 10 + digitVal y4
      let m := digitVal m1 * 10 + digitVal m2
      let d := digitVal d1 * 10 + digitVal d2
      let h := digitVal h1 * 10 + digitVal h2
      let n := digitVal n1 * 10 + digitVal n2
      if validDate y m d && decide (h ≤ 23) && decide (n ≤ 59) then
        some ⟨y, m, d, h, n⟩
      else none
    else none
  | _ => none

/-- Parse with a junk default.  The Python source calls `strptime` only
on stored strings it itself produced with `strftime`; on other strings
`strptime` would raise.  The theorems below carry a well-formedness
hypothesis under which the default branch is never reached. -/
def parseDateD (s : String) : Date := (parseDate s).getD ⟨1, 1, 1⟩

/-- Parse a reminder string with a junk default (see `parseDateD`). -/
def parseDateTimeD (s : String) : DateTime := (parseDateTime s).getD ⟨1, 1, 1, 0, 0⟩

/-- One task record, with the exact field set (and names) the Python
dict carries.  `due_date` holds a `%Y-%m-%d` string or null, `reminder`
a `%Y-%m-%d %H:%M` string or null, `created_at` / `completed_at` the
`%Y-%m-%d %H:%M:%S` strings the callers store. -/
structure Todo where
  id : Nat
  title : String
  description : String
  priority : String
  due_date : Option String
  reminder : Option String
  completed : Bool
  created_at : String
  completed_at : Option String
deriving DecidableEq, Repr

/-- Python truthiness of an optional-string field
(`if todo["due_date"]`): `None` and `""` are falsy. -/
def pyTruthy (o : Option String) : Bool :=
  match o with
  | none => false
  | some s => !(s == "")

/-- A JSON value, the parsed form of the persisted file's text. -/
inductive JValue where
  | null
  | jbool (b : Bool)
  | jnum (n : Nat)
  | jstr (s : String)
  | jarr (items : List JValue)
  | jobj (fields : List (String × JValue))

/-- Encode an optional string as a JSON string or null. -/
def jOptStr : Option String → JValue
  | none => JValue.null
  | some s => JValue.jstr s

/-- `json.dump` of one task dict: an object with the nine fields in
source order. -/
def encodeTodo (t : Todo) : JValue :=
  JValue.jobj
    [("id", JValue.jnum t.id),
     ("title", JValue.jstr t.title),
     ("description", JValue.jstr t.description),
     ("priority", JValue.jstr t.priority),
     ("due_date", jOptStr t.due_date),
     ("reminder", jOptStr t.reminder),
     ("completed", JValue.jbool t.completed),
     ("created_at", JValue.jstr t.created_at),
     ("completed_at", jOptStr t.completed_at)]

/-- `json.dump` of the whole list. -/
def encodeTodos (l : List Todo) : JValue := JValue.jarr (l.map encodeTodo)

/-- First binding of `key` in a JSON object's field list. -/
def jlookup (fields : List (String × JValue)) (key : String) : Option JValue :=
  match fields with
  | [] => none
  | (k, v) :: rest => if k == key then some v else jlookup rest key

/-- Read a JSON number as a task id. -/
def asNat : JValue → Option Nat
  | JValue.jnum n => some n
  | _ => none

/-- Read a JSON string. -/
def asStr : JValue → Option String
  | JValue.jstr s => some s
  | _ => none

/-- Read a JSON boolean. -/
def asBool : JValue → Option Bool
  | JValue.jbool b => some b
  | _ => none

/-- Read a JSON string-or-null. -/
def asOptStr : JValue → Option (Option String)
  | JValue.null => some none
  | JValue.jstr s => some (some s)
  | _ => none

/-- Decode one task record from its JSON object. -/
def decodeTodo (j : JValue) : Option Todo :=
  match j with
  | JValue.jobj fs => do
    let i ← jlookup fs "id" >>= asNat
    let ti ← jlookup fs "title" >>= asStr
    let de ← jlookup fs "description" >>= asStr
    let pr ← jlookup fs "priority" >>= asStr
    let dd ← jlookup fs "due_date" >>= asOptStr
    let re ← jlookup fs "reminder" >>= asOptStr
    let co ← jlookup fs "completed" >>= asBool
    let ca ← jlookup fs "created_at" >>= asStr
    let cc ← jlookup fs "completed_at" >>= asOptStr
    some { id := i, title := ti, description := de, priority := pr,
           due_date := dd, reminder := re, completed := co,
           created_at := ca, completed_at := cc }
  | _ => none

/-- Decode a list of task-record objects, failing if any fails. -/
def decodeTodoList : List JValue → Option (List Todo)
  | [] => some []
  | j :: rest => do
    let t ← decodeTodo j
    let ts ← decodeTodoList rest
    some (t :: ts)

/-- Decode the persisted array of task records. -/
def decodeTodos (j : JValue) : Option (List Todo) :=
  match j with
  | JValue.jarr items => decodeTodoList items
  | _ => none

/-- The persisted file: absent, text that fails JSON parsing, or text
that parses to a JSON value. -/
inductive FileState where
  | missing
  | corrupt
  | content (j : JValue)

/-- The store's state: the in-memory list plus the persisted file. -/
structure Store where
  todos : List Todo
  file : FileState

/-- `save_todos`: rewrite the whole file with the JSON encoding of the
list (the text always parses back to that value). -/
def save_todos (l : List Todo) : FileState := FileState.content (encodeTodos l)

/-- `load_todos`: a missing file or a JSON parse failure yields `[]`.
The source returns the parsed value unvalidated; a parsed value outside
the task-record schema is not representable as `List Todo`, and that
branch also maps to `[]` here — it is never reached by the theorems
below, which load only files produced by `save_todos` (or missing /
corrupt ones). -/
def load_todos : FileState → List Todo
  | FileState.missing => []
  | FileState.corrupt => []
  | FileState.content j => (decodeTodos j).getD []

/-- `TodoList.__init__`: a fresh store instance loads its list from the
file. -/
def initStore (f : FileState) : Store := { todos := load_todos f, file := f }

/-- `add_todo`: build the record with `id = len(todos) + 1`, append it,
persist, and return it.  `createdAt` stands for the
`datetime.now().strftime("%Y-%m-%d %H:%M:%S")` string. -/
def add_todo (title description priority : String) (due_date : Option Date)
    (reminder : Option DateTime) (createdAt : String) (s : Store) : Todo × Store :=
  let todo : Todo :=
    { id := s.todos.length + 1,
      title := title,
      description := description,
      priority := priority,
      due_date := due_date.map Date.isoFormat,
      reminder := reminder.map DateTime.fmt,
      completed := false,
      created_at := createdAt,
      completed_at := none }
  let todos := s.todos ++ [todo]
  (todo, { todos := todos, file := save_todos todos })

/-- `get_todos`: optional completed filter, then optional priority
filter with `"All"` as the no-filter sentinel; insertion order kept. -/
def get_todos (completed : Option Bool) (priority : Option String) (s : Store) :
    List Todo × Store :=
  let filtered :=
    match completed with
    | some b => s.todos.filter (fun t => t.completed == b)
    | none => s.todos
  let filtered2 :=
    match priority with
    | some p => if p == "All" then filtered else filtered.filter (fun t => t.priority == p)
    | none => filtered
  (filtered2, s)

/-- The string sort key `lambda x: x["due_date"]` used by
`get_upcoming_todos` (every element there has a due date). -/
def dueKey (t : Todo) : String := t.due_date.getD ""

/-- Due-date-string comparison of two records, the order by which
`sorted(upcoming, key=lambda x: x["due_date"])` sorts. -/
def dueLE (a b : Todo) : Prop := dueKey a ≤ dueKey b

instance : DecidableRel dueLE :=
  fun a b => inferInstanceAs (Decidable (dueKey a ≤ dueKey b))

instance : IsTotal Todo dueLE := ⟨fun a b => le_total (dueKey a) (dueKey b)⟩

instance : IsTrans Todo dueLE := ⟨fun _ _ _ h1 h2 => le_trans h1 h2⟩

/-- `get_upcoming_todos`: non-completed tasks with a (truthy) due date
in `[today, today + timedelta(days)]`, sorted by the due-date string.
`today` stands for `date.today()`.  Python's `sorted` is a stable sort
by the key, and a stable sort's output is uniquely determined by the
(total, transitive) key order, so it is modelled by the stable
`List.insertionSort`. -/
def get_upcoming_todos (today : Date) (days : Nat) (s : Store) : List Todo × Store :=
  let future := today.addDays days
  let upcoming := s.todos.filter (fun t =>
    pyTruthy t.due_date && !t.completed &&
      (today.ble (parseDateD (t.due_date.getD "")) &&
       (parseDateD (t.due_date.getD "")).ble future))
  (upcoming.insertionSort dueLE, s)

/-- `get_todos_by_date`: exact match of the due-date string against
`target_date.strftime("%Y-%m-%d")` (a null due date never matches). -/
def get_todos_by_date (target : Date) (s : Store) : List Todo × Store :=
  (s.todos.filter (fun t => t.due_date == some target.isoFormat), s)

/-- `check_reminders`: non-completed tasks with a (truthy) reminder
whose parsed time is `≤ now`.  `now` stands for `datetime.now()`. -/
def check_reminders (now : DateTime) (s : Store) : List Todo × Store :=
  (s.todos.filter (fun t =>
    pyTruthy t.reminder && !t.completed &&
      (parseDateTimeD (t.reminder.getD "")).ble now), s)

/-- The `**kwargs` of `update_todo`.  Each field is tri-state: `none` =
key absent from the call, `some none` = key present with value `None`
(skipped by the `value is not None` guard), `some (some v)` = key
present with a real value (applied).  `id` and `created_at` are never
passed by the callers and are not modelled. -/
structure UpdateArgs where
  title : Option (Option String)
  description : Option (Option String)
  priority : Option (Option String)
  due_date : Option (Option Date)
  reminder : Option (Option DateTime)
  completed : Option (Option Bool)
  completed_at : Option (Option String)
deriving DecidableEq, Repr

/-- The inner kwargs loop of `update_todo` on one matching record: a key
is applied only when present with a non-`None` value; `due_date` and
`reminder` values (date objects, always truthy) are stored via
`strftime`. -/
def applyKwargs (a : UpdateArgs) (t : Todo) : Todo :=
  { t with
    title := match a.title with | some (some v) => v | _ => t.title
    description := match a.description with | some (some v) => v | _ => t.description
    priority := match a.priority with | some (some v) => v | _ => t.priority
    due_date := match a.due_date with | some (some v) => some v.isoFormat | _ => t.due_date
    reminder := match a.reminder with | some (some v) => some v.fmt | _ => t.reminder
    completed := match a.completed with | some (some v) => v | _ => t.completed
    completed_at := match a.completed_at with | some (some v) => some v | _ => t.completed_at }

/-- The search loop of `update_todo`: rewrite the first record whose id
matches (the loop returns from inside its body), `none` if no match. -/
def updateFirst (id : Nat) (a : UpdateArgs) : List Todo → Option (List Todo)
  | [] => none
  | t :: rest =>
    if t.id == id then some (applyKwargs a t :: rest)
    else (updateFirst id a rest).map (fun l => t :: l)

/-- `update_todo`: update the first matching record, persist and return
`true`; `false` (and no write) when no record has that id. -/
def update_todo (id : Nat) (a : UpdateArgs) (s : Store) : Bool × Store :=
  match updateFirst id a s.todos with
  | some todos => (true, { todos := todos, file := save_todos todos })
  | none => (false, s)

/-- The search loop of `delete_todo`: drop the first record whose id
matches, `none` if no match. -/
def deleteFirst (id : Nat) : List Todo → Option (List Todo)
  | [] => none
  | t :: rest =>
    if t.id == id then some rest
    else (deleteFirst id rest).map (fun l => t :: l)

/-- `delete_todo`: remove the first matching record, persist and return
`true`; `false` (and no write) when no record has that id. -/
def delete_todo (id : Nat) (s : Store) : Bool × Store :=
  match deleteFirst id s.todos with
  | some todos => (true, { todos := todos, file := save_todos todos })
  | none => (false, s)

/-- The result record of `get_stats`. -/
structure Stats where
  total : Nat
  completed : Nat
  pending : Nat
  high_priority : Nat
  medium_priority : Nat
  low_priority : Nat
  overdue : Nat
deriving DecidableEq, Repr

/-- `get_stats`: counts are recomputed from the list on every call; the
overdue loop counts non-completed tasks with a truthy due date parsed
strictly before `today`. -/
def get_stats (today : Date) (s : Store) : Stats × Store :=
  let total := s.todos.length
  let completed := (s.todos.filter (fun t => t.completed)).length
  let pending := total - completed
  let high_priority := (s.todos.filter (fun t => t.priority == "High")).length
  let medium_priority := (s.todos.filter (fun t => t.priority == "Medium")).length
  let low_priority := (s.todos.filter (fun t => t.priority == "Low")).length
  let overdue := s.todos.foldl
    (fun acc t =>
      if pyTruthy t.due_date && !t.completed &&
          (parseDateD (t.due_date.getD "")).blt today then acc + 1
      else acc) 0
  ({ total := total, completed := completed, pending := pending,
     high_priority := high_priority, medium_priority := medium_priority,
     low_priority := low_priority, overdue := overdue }, s)

/-- Well-formedness of one stored record: its optional date strings are
ones `strptime` accepts (as all strings written by `add_todo` /
`update_todo` are).  On ill-formed strings the Python source would
raise inside `strptime`; the query theorems assume this predicate. -/
def wfTodo (t : Todo) : Bool :=
  (match t.due_date with
   | none => true
   | some s => (parseDate s).isSome) &&
  (match t.reminder with
   | none => true
   | some s => (parseDateTime s).isSome)

/-- Well-formedness of a whole list of records. -/
def wfTodos (l : List Todo) : Bool := l.all wfTodo

end TodoProj

namespace TodoProj

/-! ### Spec-side predicates

These transcribe the spec's wording ("non-completed tasks whose
due_date lies in [today, today+windowDays] inclusive", "reminder ≤
now", "due_date < today") for comparison with what the code computes. -/

/-- The task's due date parses and lies in `[today, future]`. -/
def dueInWindow (today future : Date) (t : Todo) : Bool :=
  match t.due_date with
  | none => false
  | some s =>
    match parseDate s with
    | none => false
    | some d => today.ble d && d.ble future

/-- The task's due date parses and is strictly before `today`. -/
def dueStrictlyBefore (today : Date) (t : Todo) : Bool :=
  match t.due_date with
  | none => false
  | some s =>
    match parseDate s with
    | none => false
    | some d => d.blt today

/-- The task's reminder parses and is at or before `now`. -/
def reminderDue (now : DateTime) (t : Todo) : Bool :=
  match t.reminder with
  | none => false
  | some s =>
    match parseDateTime s with
    | none => false
    | some r => r.ble now

/-! ### Concrete stores used by witnesses and counterexamples -/

/-- `UpdateArgs` with no key passed. -/
def noArgs : UpdateArgs := ⟨none, none, none, none, none, none, none⟩

/-- Session demonstrating id reuse: add, add, delete id 1, add. -/
def demoA : Store :=
  (add_todo "a" "" "Medium" none none "2024-01-01 00:00:00"
    (initStore FileState.missing)).2

/-- Second add of the id-reuse session. -/
def demoB : Store :=
  (add_todo "b" "" "Medium" none none "2024-01-01 00:00:01" demoA).2

/-- The id-reuse session after `delete_todo 1`. -/
def demoC : Store := (delete_todo 1 demoB).2

/-- The id-reuse session after the final add: two records share id 2. -/
def demoD : Store :=
  (add_todo "c" "" "Medium" none none "2024-01-01 00:00:02" demoC).2

/-- The spec's concrete scenario, first create. -/
def scenarioStore1 : Store :=
  (add_todo "Buy milk" "" "High" (some ⟨2024, 1, 10⟩) none
    "2024-01-08 09:00:00" (initStore FileState.missing)).2

/-- The spec's concrete scenario: "Buy milk" due 2024-01-10 and
"Call dentist" due 2024-01-20. -/
def scenarioStore : Store :=
  (add_todo "Call dentist" "" "Low" (some ⟨2024, 1, 20⟩) none
    "2024-01-08 09:00:01" scenarioStore1).2

/-- The "Buy milk" record of the scenario. -/
def buyMilk : Todo :=
  (add_todo "Buy milk" "" "High" (some ⟨2024, 1, 10⟩) none
    "2024-01-08 09:00:00" (initStore FileState.missing)).1

/-- A one-record store whose task has a due date, for the update
counterexample. -/
def dueStore : Store :=
  (add_todo "d" "" "Medium" (some ⟨2024, 1, 10⟩) none
    "2024-01-01 00:00:00" (initStore FileState.missing)).2

/-- The record held by `dueStore`. -/
def dueTodo : Todo :=
  (add_todo "d" "" "Medium" (some ⟨2024, 1, 10⟩) none
    "2024-01-01 00:00:00" (initStore FileState.missing)).1

/-- A one-record store whose task has a reminder at 2024-01-08 09:00. -/
def remStore : Store :=
  (add_todo "r" "" "Medium" none (some ⟨2024, 1, 8, 9, 0⟩)
    "2024-01-01 00:00:00" (initStore FileState.missing)).2

/-- The record held by `remStore`. -/
def remTodo : Todo :=
  (add_todo "r" "" "Medium" none (some ⟨2024, 1, 8, 9, 0⟩)
    "2024-01-01 00:00:00" (initStore FileState.missing)).1

/-- One create request of a session of create calls. -/
structure CreateReq where
  title : String
  description : String
  priority : String
  due_date : Option Date
  reminder : Option DateTime
  createdAt : String

/-- Run a sequence of create calls against a store. -/
def createAll : List CreateReq → Store → Store
  | [], s => s
  | r :: rs, s =>
    createAll rs (add_todo r.title r.description r.priority r.due_date r.reminder r.createdAt s).2

/-- Arguments passing `due_date` explicitly as `None`. -/
def nullDueArgs : UpdateArgs := ⟨none, none, none, some none, none, none, none⟩

/-- Arguments passing only a new title. -/
def titleArgs : UpdateArgs := ⟨some (some "x"), none, none, none, none, none, none⟩

/-! ### Helper lemmas -/

/-- A string `strptime` accepts as a date is nonempty (it has ten
characters), hence truthy. -/
theorem parseDate_beq_empty {s : String} {d : Date} (h : parseDate s = some d) :
    (s == "") = false := by
  rcases hb : s == "" with _ | _
  · rfl
  · rw [eq_of_beq hb] at h
    cases h

/-- A string `strptime` accepts as a date-time is nonempty. -/
theorem parseDateTime_beq_empty {s : String} {r : DateTime}
    (h : parseDateTime s = some r) : (s == "") = false := by
  rcases hb : s == "" with _ | _
  · rfl
  · rw [eq_of_beq hb] at h
    cases h

/-- A well-formed record's stored due-date string parses. -/
theorem wfTodo_due {t : Todo} (h : wfTodo t = true) {s : String}
    (hd : t.due_date = some s) : ∃ d, parseDate s = some d := by
  unfold wfTodo at h
  rw [hd] at h
  simp only [Bool.and_eq_true] at h
  exact Option.isSome_iff_exists.mp h.1

/-- A well-formed record's stored reminder string parses. -/
theorem wfTodo_rem {t : Todo} (h : wfTodo t = true) {s : String}
    (hd : t.reminder = some s) : ∃ r, parseDateTime s = some r := by
  unfold wfTodo at h
  rw [hd] at h
  simp only [Bool.and_eq_true] at h
  exact Option.isSome_iff_exists.mp h.2

/-- On a well-formed record the filter test of `get_upcoming_todos`
coincides with the spec-side window predicate. -/
theorem upcoming_filter_pred {today future : Date} {t : Todo}
    (h : wfTodo t = true) :
    (pyTruthy t.due_date && !t.completed &&
      (today.ble (parseDateD (t.due_date.getD "")) &&
       (parseDateD (t.due_date.getD "")).ble future))
    = (!t.completed && dueInWindow today future t) := by
  cases hd : t.due_date with
  | none => simp [pyTruthy, dueInWindow, hd]
  | some s =>
    obtain ⟨d, hp⟩ := wfTodo_due h hd
    have hne := parseDate_beq_empty hp
    simp [pyTruthy, dueInWindow, hd, hp, parseDateD, hne]

/-- On a well-formed record the overdue test of `get_stats` coincides
with the spec-side strictly-before predicate. -/
theorem overdue_filter_pred {today : Date} {t : Todo} (h : wfTodo t = true) :
    (pyTruthy t.due_date && !t.completed &&
      (parseDateD (t.due_date.getD "")).blt today)
    = (!t.completed && dueStrictlyBefore today t) := by
  cases hd : t.due_date with
  | none => simp [pyTruthy, dueStrictlyBefore, hd]
  | some s =>
    obtain ⟨d, hp⟩ := wfTodo_due h hd
    have hne := parseDate_beq_empty hp
    simp [pyTruthy, dueStrictlyBefore, hd, hp, parseDateD, hne]

/-- On a well-formed record the filter test of `check_reminders`
coincides with the spec-side reminder-due predicate. -/
theorem reminder_filter_pred {now : DateTime} {t : Todo} (h : wfTodo t = true) :
    (pyTruthy t.reminder && !t.completed &&
      (parseDateTimeD (t.reminder.getD "")).ble now)
    = (!t.completed && reminderDue now t) := by
  cases hd : t.reminder with
  | none => simp [pyTruthy, reminderDue, hd]
  | some s =>
    obtain ⟨r, hp⟩ := wfTodo_rem h hd
    have hne := parseDateTime_beq_empty hp
    simp [pyTruthy, reminderDue, hd, hp, parseDateTimeD, hne]

end TodoProj

namespace TodoProj

/-! ### Further helper lemmas -/

/-- The update loop succeeds exactly when some record's id matches. -/
theorem updateFirst_isSome (id : Nat) (a : UpdateArgs) :
    ∀ l : List Todo, (updateFirst id a l).isSome = l.any (fun t => t.id == id)
  | [] => rfl
  | t :: rest => by
    simp only [updateFirst, List.any_cons]
    by_cases h : (t.id == id) = true
    · simp [h]
    · simp only [Bool.not_eq_true] at h
      simp [h, updateFirst_isSome id a rest]

/-- The delete loop succeeds exactly when some record's id matches. -/
theorem deleteFirst_isSome (id : Nat) :
    ∀ l : List Todo, (deleteFirst id l).isSome = l.any (fun t => t.id == id)
  | [] => rfl
  | t :: rest => by
    simp only [deleteFirst, List.any_cons]
    by_cases h : (t.id == id) = true
    · simp [h]
    · simp only [Bool.not_eq_true] at h
      simp [h, deleteFirst_isSome id rest]

/-- A successful delete removes exactly one matching record and keeps
the rest in order. -/
theorem deleteFirst_some {id : Nat} :
    ∀ {l l' : List Todo}, deleteFirst id l = some l' →
      ∃ pre t0 post, l = pre ++ t0 :: post ∧ t0.id = id ∧ l' = pre ++ post := by
  intro l
  induction l with
  | nil => intro l' h; cases h
  | cons t rest ih =>
    intro l' h
    simp only [deleteFirst] at h
    split at h
    · cases h
      rename_i hid
      exact ⟨[], t, rest, rfl, by simpa using hid, rfl⟩
    · rw [Option.map_eq_some'] at h
      obtain ⟨l'', h'', rfl⟩ := h
      obtain ⟨pre, t0, post, hl, hid, hl'⟩ := ih h''
      exact ⟨t :: pre, t0, post, by rw [hl]; rfl, hid, by rw [hl']; rfl⟩

/-- When no record matches, the delete loop reports it truthfully. -/
theorem deleteFirst_none {id : Nat} {l : List Todo} (h : deleteFirst id l = none) :
    ∀ t ∈ l, t.id ≠ id := by
  intro t ht
  have hs := deleteFirst_isSome id l
  rw [h] at hs
  have hany : l.any (fun t => t.id == id) = false := hs.symm
  rw [List.any_eq_false] at hany
  simpa using hany t ht

/-- Everything a query returns was in the store's list. -/
theorem get_todos_subset {c : Option Bool} {p : Option String} {s : Store} {t : Todo}
    (h : t ∈ (get_todos c p s).1) : t ∈ s.todos := by
  simp only [get_todos] at h
  rcases c with _ | b <;> rcases p with _ | pp <;> dsimp at h
  · exact h
  · split at h
    · exact h
    · exact (List.mem_filter.mp h).1
  · exact (List.mem_filter.mp h).1
  · split at h
    · exact (List.mem_filter.mp h).1
    · exact (List.mem_filter.mp (List.mem_filter.mp h).1).1

/-- A successful update rewrites exactly the first matching position
(the one `findIdx` locates) and keeps every other record. -/
theorem updateFirst_set {id : Nat} {a : UpdateArgs} (d0 : Todo) :
    ∀ {l l' : List Todo}, updateFirst id a l = some l' →
      l.findIdx (fun t => t.id == id) < l.length ∧
      l' = l.set (l.findIdx (fun t => t.id == id))
        (applyKwargs a (l.getD (l.findIdx (fun t => t.id == id)) d0)) := by
  intro l
  induction l with
  | nil => intro l' h; cases h
  | cons t rest ih =>
    intro l' h
    simp only [updateFirst] at h
    rw [List.findIdx_cons]
    split at h
    · rename_i hid
      cases h
      simp [hid]
    · rename_i hid
      rw [Option.map_eq_some'] at h
      obtain ⟨l'', h'', rfl⟩ := h
      obtain ⟨hlt, hset⟩ := ih h''
      have hb : (t.id == id) = false := by simpa using hid
      simp only [hb, cond_false, List.length_cons, List.set_cons_succ,
        List.getD_cons_succ]
      exact ⟨Nat.succ_lt_succ hlt, by rw [hset]⟩

/-- Decoding inverts encoding on one task record, field for field. -/
theorem decodeTodo_encodeTodo (t : Todo) : decodeTodo (encodeTodo t) = some t := by
  rcases t with ⟨i, ti, de, pr, dd, re, co, ca, cc⟩
  cases dd <;> cases re <;> cases cc <;> rfl

/-- Decoding inverts encoding on a whole list, in order. -/
theorem decodeTodos_encodeTodos (l : List Todo) :
    decodeTodos (encodeTodos l) = some l := by
  induction l with
  | nil => rfl
  | cons t rest ih =>
    simp only [decodeTodos, encodeTodos, List.map_cons] at ih ⊢
    simp [decodeTodoList, decodeTodo_encodeTodo, ih]

/-- A session of creates appends records with the consecutive ids
`count + 1, count + 2, ...`. -/
theorem createAll_ids (reqs : List CreateReq) :
    ∀ s : Store, (createAll reqs s).todos.map (fun t => t.id)
      = s.todos.map (fun t => t.id) ++ List.range' (s.todos.length + 1) reqs.length := by
  induction reqs with
  | nil => intro s; simp [createAll]
  | cons r rs ih =>
    intro s
    simp only [createAll, add_todo]
    rw [ih]
    simp [List.range'_succ, List.length_append]

/-- A conditional-increment fold is a `countP`. -/
theorem foldl_count {α : Type} (p : α → Bool) :
    ∀ (l : List α) (n : Nat),
      l.foldl (fun acc t => if p t then acc + 1 else acc) n = n + l.countP p
  | [], _ => by simp
  | t :: rest, n => by
    simp only [List.foldl_cons, List.countP_cons]
    by_cases h : p t = true
    · rw [if_pos h, foldl_count p rest (n + 1)]
      simp [h]
      omega
    · rw [if_neg h, foldl_count p rest n]
      simp [h]

/-! ### The claims -/

/-- C1, counterexample.  In the reachable store `demoD` (add, add,
delete id 1, add — two records share id 2, because ids are assigned as
`count + 1`), `delete_todo 2` succeeds yet an unfiltered query still
returns a task with id 2: the claim fails as stated over all reachable
states. -/
theorem delete_query_cex :
    (delete_todo 2 demoD).1 = true ∧
    (get_todos none none (delete_todo 2 demoD).2).1.map (fun t => t.id) = [2] := by
  decide

/-- C1, amended.  For every store state whose task ids are pairwise
distinct, after `delete_todo id` a query with any filters never
returns a task whose id equals `id`. -/
theorem delete_query_spec (s : Store) (id : Nat)
    (hnd : (s.todos.map (fun t => t.id)).Nodup) (c : Option Bool) (p : Option String) :
    (get_todos c p (delete_todo id s).2).1.all (fun t => t.id != id) = true := by
  rw [List.all_eq_true]
  intro t ht
  have hmem : t ∈ (delete_todo id s).2.todos := get_todos_subset ht
  simp only [bne_iff_ne, ne_eq]
  cases hdel : deleteFirst id s.todos with
  | none =>
    simp only [delete_todo, hdel] at hmem
    exact deleteFirst_none hdel t hmem
  | some l' =>
    simp only [delete_todo, hdel] at hmem
    obtain ⟨pre, t0, post, hl, hid, hl'⟩ := deleteFirst_some hdel
    subst hl' hid
    rw [hl, List.map_append, List.map_cons, List.nodup_middle, List.nodup_cons] at hnd
    have hne : t.id ∈ (pre.map (fun t => t.id) ++ post.map (fun t => t.id)) := by
      rw [← List.map_append]
      exact List.mem_map_of_mem _ hmem
    intro heq
    exact hnd.1 (heq ▸ hne)

/-- C1, witness: in the two-record store `demoB` (distinct ids 1, 2),
after deleting id 1 no queried task has id 1. -/
theorem delete_query_witness :
    (demoB.todos.map (fun t => t.id)).Nodup ∧
    (get_todos none none (delete_todo 1 demoB).2).1.all (fun t => t.id != 1) = true :=
  ⟨by decide, delete_query_spec demoB 1 (by decide) none none⟩

/-- C2, counterexample.  Ids are not unique for the store's lifetime:
after add, add, delete id 1, add, the list holds ids `[2, 2]`. -/
theorem create_ids_cex :
    demoD.todos.map (fun t => t.id) = [2, 2] ∧
    ¬ (demoD.todos.map (fun t => t.id)).Nodup := by
  decide

/-- C2, amended.  Each create assigns id = current count + 1, and for
every sequence of create calls (no interleaved deletes) on a fresh
store the assigned ids are `1, 2, ...`: strictly increasing and
pairwise distinct.  (Uniqueness over the store's lifetime fails once a
delete precedes a create — see the counterexample.) -/
theorem create_ids_spec :
    (∀ (title description priority : String) (dd : Option Date) (rem : Option DateTime)
       (ca : String) (s : Store),
       (add_todo title description priority dd rem ca s).1.id = s.todos.length + 1)
    ∧ (∀ reqs : List CreateReq,
         (createAll reqs (initStore FileState.missing)).todos.map (fun t => t.id)
           = List.range' 1 reqs.length)
    ∧ (∀ reqs : List CreateReq,
         ((createAll reqs (initStore FileState.missing)).todos.map
           (fun t => t.id)).Pairwise (· < ·))
    ∧ (∀ reqs : List CreateReq,
         ((createAll reqs (initStore FileState.missing)).todos.map (fun t => t.id)).Nodup) := by
  have hids : ∀ reqs : List CreateReq,
      (createAll reqs (initStore FileState.missing)).todos.map (fun t => t.id)
        = List.range' 1 reqs.length := by
    intro reqs
    rw [createAll_ids]
    rfl
  refine ⟨fun _ _ _ _ _ _ _ => rfl, hids, ?_, ?_⟩
  · intro reqs
    rw [hids]
    exact List.pairwise_lt_range' 1 reqs.length
  · intro reqs
    rw [hids]
    exact List.nodup_range' 1 reqs.length

end TodoProj

namespace TodoProj

/-- C3, counterexample.  Passing `due_date=None` to `update_todo` on a
task that has a due date leaves the field untouched (the `value is not
None` guard skips it); it does not clear the field as the claim's
exception clause states. -/
theorem update_null_cex :
    (update_todo 1 nullDueArgs dueStore).1 = true ∧
    (update_todo 1 nullDueArgs dueStore).2.todos.map (fun t => t.due_date)
      = [some "2024-01-10"] := by
  decide

/-- C3, amended.  A successful update rewrites only the first record
whose id matches, and on that record applies exactly the fields passed
with non-null values (dates stored via `strftime`); fields absent or
explicitly null are left untouched — including `due_date` and
`reminder`, whose explicit null does NOT clear them — and `id` /
`created_at` are never modified. -/
theorem update_fields_spec :
    (∀ (l : List Todo) (id : Nat) (a : UpdateArgs) (l' : List Todo) (d0 : Todo),
       updateFirst id a l = some l' →
         l.findIdx (fun t => t.id == id) < l.length ∧
         l' = l.set (l.findIdx (fun t => t.id == id))
           (applyKwargs a (l.getD (l.findIdx (fun t => t.id == id)) d0)))
    ∧ (∀ (a : UpdateArgs) (t : Todo),
        (applyKwargs a t).id = t.id ∧ (applyKwargs a t).created_at = t.created_at)
    ∧ (∀ (a : UpdateArgs) (t : Todo), (a.title = none ∨ a.title = some none) →
        (applyKwargs a t).title = t.title)
    ∧ (∀ (a : UpdateArgs) (t : Todo), (a.description = none ∨ a.description = some none) →
        (applyKwargs a t).description = t.description)
    ∧ (∀ (a : UpdateArgs) (t : Todo), (a.priority = none ∨ a.priority = some none) →
        (applyKwargs a t).priority = t.priority)
    ∧ (∀ (a : UpdateArgs) (t : Todo), (a.due_date = none ∨ a.due_date = some none) →
        (applyKwargs a t).due_date = t.due_date)
    ∧ (∀ (a : UpdateArgs) (t : Todo), (a.reminder = none ∨ a.reminder = some none) →
        (applyKwargs a t).reminder = t.reminder)
    ∧ (∀ (a : UpdateArgs) (t : Todo), (a.completed = none ∨ a.completed = some none) →
        (applyKwargs a t).completed = t.completed)
    ∧ (∀ (a : UpdateArgs) (t : Todo), (a.completed_at = none ∨ a.completed_at = some none) →
        (applyKwargs a t).completed_at = t.completed_at)
    ∧ (∀ (a : UpdateArgs) (t : Todo) (v : String), a.title = some (some v) →
        (applyKwargs a t).title = v)
    ∧ (∀ (a : UpdateArgs) (t : Todo) (v : String), a.description = some (some v) →
        (applyKwargs a t).description = v)
    ∧ (∀ (a : UpdateArgs) (t : Todo) (v : String), a.priority = some (some v) →
        (applyKwargs a t).priority = v)
    ∧ (∀ (a : UpdateArgs) (t : Todo) (v : Date), a.due_date = some (some v) →
        (applyKwargs a t).due_date = some v.isoFormat)
    ∧ (∀ (a : UpdateArgs) (t : Todo) (v : DateTime), a.reminder = some (some v) →
        (applyKwargs a t).reminder = some v.fmt)
    ∧ (∀ (a : UpdateArgs) (t : Todo) (v : Bool), a.completed = some (some v) →
        (applyKwargs a t).completed = v)
    ∧ (∀ (a : UpdateArgs) (t : Todo) (v : String), a.completed_at = some (some v) →
        (applyKwargs a t).completed_at = some v) := by
  refine ⟨fun l id a l' d0 h => updateFirst_set d0 h,
    fun a t => ⟨rfl, rfl⟩, ?_, ?_, ?_, ?_, ?_, ?_, ?_, ?_, ?_, ?_, ?_, ?_, ?_, ?_⟩ <;>
    intro a t
  case _ => intro h; rcases h with h | h <;> simp [applyKwargs, h]
  case _ => intro h; rcases h with h | h <;> simp [applyKwargs, h]
  case _ => intro h; rcases h with h | h <;> simp [applyKwargs, h]
  case _ => intro h; rcases h with h | h <;> simp [applyKwargs, h]
  case _ => intro h; rcases h with h | h <;> simp [applyKwargs, h]
  case _ => intro h; rcases h with h | h <;> simp [applyKwargs, h]
  case _ => intro h; rcases h with h | h <;> simp [applyKwargs, h]
  case _ => intro v h; simp [applyKwargs, h]
  case _ => intro v h; simp [applyKwargs, h]
  case _ => intro v h; simp [applyKwargs, h]
  case _ => intro v h; simp [applyKwargs, h]
  case _ => intro v h; simp [applyKwargs, h]
  case _ => intro v h; simp [applyKwargs, h]
  case _ => intro v h; simp [applyKwargs, h]

/-- C3, witness: updating the title of the single record of `dueStore`
rewrites position 0 with the applied record. -/
theorem update_fields_witness :
    updateFirst 1 titleArgs dueStore.todos = some [applyKwargs titleArgs dueTodo] ∧
    dueStore.todos.findIdx (fun t => t.id == 1) < dueStore.todos.length ∧
    [applyKwargs titleArgs dueTodo]
      = dueStore.todos.set (dueStore.todos.findIdx (fun t => t.id == 1))
          (applyKwargs titleArgs
            (dueStore.todos.getD (dueStore.todos.findIdx (fun t => t.id == 1)) dueTodo)) := by
  refine ⟨by decide, ?_⟩
  exact update_fields_spec.1 dueStore.todos 1 titleArgs [applyKwargs titleArgs dueTodo]
    dueTodo (by decide)

/-- C4.  On a well-formed store, `get_upcoming_todos` returns exactly
the non-completed tasks whose due date lies in the inclusive window
`[today, today + windowDays]` (never one in the past or beyond the
window), sorted ascending by the due-date string; and in the spec's
concrete scenario (tasks due 2024-01-10 and 2024-01-20, clock fixed at
2024-01-08) `upcoming(7)` returns only "Buy milk". -/
theorem upcoming_window_spec :
    (∀ (today : Date) (w : Nat) (s : Store), wfTodos s.todos = true →
      (∀ t : Todo, t ∈ (get_upcoming_todos today w s).1 ↔
        (t ∈ s.todos ∧ t.completed = false ∧
         dueInWindow today (today.addDays w) t = true)) ∧
      List.Sorted dueLE (get_upcoming_todos today w s).1)
    ∧ (get_upcoming_todos ⟨2024, 1, 8⟩ 7 scenarioStore).1.map (fun t => t.title)
        = ["Buy milk"] := by
  constructor
  · intro today w s hwf
    rw [wfTodos, List.all_eq_true] at hwf
    constructor
    · intro t
      have hmem : t ∈ (get_upcoming_todos today w s).1 ↔
          t ∈ s.todos ∧ (pyTruthy t.due_date && !t.completed &&
            (today.ble (parseDateD (t.due_date.getD "")) &&
             (parseDateD (t.due_date.getD "")).ble (today.addDays w))) = true := by
        simp only [get_upcoming_todos, List.mem_insertionSort, List.mem_filter]
      rw [hmem]
      constructor
      · rintro ⟨h1, h2⟩
        rw [upcoming_filter_pred (hwf t h1), Bool.and_eq_true, Bool.not_eq_true'] at h2
        exact ⟨h1, h2.1, h2.2⟩
      · rintro ⟨h1, h2, h3⟩
        refine ⟨h1, ?_⟩
        rw [upcoming_filter_pred (hwf t h1), Bool.and_eq_true, Bool.not_eq_true']
        exact ⟨h2, h3⟩
    · exact List.sorted_insertionSort dueLE _
  · decide

/-- C4, witness: the membership characterisation instantiated at the
scenario store and its "Buy milk" record. -/
theorem upcoming_window_witness :
    wfTodos scenarioStore.todos = true ∧
    (buyMilk ∈ (get_upcoming_todos ⟨2024, 1, 8⟩ 7 scenarioStore).1 ↔
      (buyMilk ∈ scenarioStore.todos ∧ buyMilk.completed = false ∧
       dueInWindow ⟨2024, 1, 8⟩ (Date.addDays ⟨2024, 1, 8⟩ 7) buyMilk = true)) :=
  ⟨by decide, (upcoming_window_spec.1 ⟨2024, 1, 8⟩ 7 scenarioStore (by decide)).1 buyMilk⟩

/-- C5.  On a well-formed store, `check_reminders` returns exactly the
non-completed tasks whose reminder time is at or before `now`; an
update passing `completed=True` marks its target completed, and a
completed record is never among `check_reminders` results, even while
its reminder stays ≤ now. -/
theorem reminders_spec :
    (∀ (now : DateTime) (s : Store), wfTodos s.todos = true →
       ∀ t : Todo, t ∈ (check_reminders now s).1 ↔
         (t ∈ s.todos ∧ t.completed = false ∧ reminderDue now t = true))
    ∧ (∀ (a : UpdateArgs) (t : Todo), a.completed = some (some true) →
         (applyKwargs a t).completed = true)
    ∧ (∀ (now : DateTime) (s : Store) (u : Todo), u.completed = true →
         u ∉ (check_reminders now s).1) := by
  refine ⟨?_, ?_, ?_⟩
  · intro now s hwf t
    rw [wfTodos, List.all_eq_true] at hwf
    have hmem : t ∈ (check_reminders now s).1 ↔
        t ∈ s.todos ∧ (pyTruthy t.reminder && !t.completed &&
          (parseDateTimeD (t.reminder.getD "")).ble now) = true := by
      simp only [check_reminders, List.mem_filter]
    rw [hmem]
    constructor
    · rintro ⟨h1, h2⟩
      rw [reminder_filter_pred (hwf t h1), Bool.and_eq_true, Bool.not_eq_true'] at h2
      exact ⟨h1, h2.1, h2.2⟩
    · rintro ⟨h1, h2, h3⟩
      refine ⟨h1, ?_⟩
      rw [reminder_filter_pred (hwf t h1), Bool.and_eq_true, Bool.not_eq_true']
      exact ⟨h2, h3⟩
  · intro a t h
    simp [applyKwargs, h]
  · intro now s u hc hmem
    simp only [check_reminders, List.mem_filter] at hmem
    rcases hmem with ⟨-, h2⟩
    rw [hc] at h2
    simp at h2

/-- C5, witness: the characterisation instantiated at a store holding
one task with a reminder at 2024-01-08 09:00 and the clock at 09:30. -/
theorem reminders_witness :
    wfTodos remStore.todos = true ∧
    (remTodo ∈ (check_reminders ⟨2024, 1, 8, 9, 30⟩ remStore).1 ↔
      (remTodo ∈ remStore.todos ∧ remTodo.completed = false ∧
       reminderDue ⟨2024, 1, 8, 9, 30⟩ remTodo = true)) :=
  ⟨by decide, (reminders_spec.1 ⟨2024, 1, 8, 9, 30⟩ remStore (by decide)) remTodo⟩

/-- C6.  Persisting a store's full list and loading it into a fresh
store instance yields the identical task list, field for field and in
the same order. -/
theorem save_load_roundtrip (l : List Todo) :
    (initStore (save_todos l)).todos = l ∧ load_todos (save_todos l) = l := by
  have h : load_todos (save_todos l) = l := by
    simp [load_todos, save_todos, decodeTodos_encodeTodos]
  exact ⟨h, h⟩

/-- C7.  `get_stats` always satisfies total = completed + pending, and
on a well-formed store its overdue count equals the number of
non-completed tasks whose due date is strictly before today. -/
theorem stats_spec (today : Date) (s : Store) :
    ((get_stats today s).1.total
       = (get_stats today s).1.completed + (get_stats today s).1.pending) ∧
    (wfTodos s.todos = true →
      (get_stats today s).1.overdue
        = s.todos.countP (fun t => !t.completed && dueStrictlyBefore today t)) := by
  constructor
  · have hle := List.length_filter_le (fun t => t.completed) s.todos
    simp only [get_stats]
    omega
  · intro hwf
    rw [wfTodos, List.all_eq_true] at hwf
    simp only [get_stats]
    rw [foldl_count]
    simp only [Nat.zero_add]
    exact List.countP_congr (fun t ht => by rw [overdue_filter_pred (hwf t ht)])

/-- C7, witness: the statistics identities at the one-task store whose
task is due 2024-01-10, with today = 2024-01-08. -/
theorem stats_witness :
    ((get_stats ⟨2024, 1, 8⟩ dueStore).1.total
       = (get_stats ⟨2024, 1, 8⟩ dueStore).1.completed
           + (get_stats ⟨2024, 1, 8⟩ dueStore).1.pending) ∧
    wfTodos dueStore.todos = true ∧
    (get_stats ⟨2024, 1, 8⟩ dueStore).1.overdue
      = dueStore.todos.countP (fun t => !t.completed && dueStrictlyBefore ⟨2024, 1, 8⟩ t) :=
  ⟨(stats_spec ⟨2024, 1, 8⟩ dueStore).1, by decide,
   (stats_spec ⟨2024, 1, 8⟩ dueStore).2 (by decide)⟩

/-- C8.  Loading from a missing file or from one whose text fails to
parse yields an empty task list — a fresh store built on such a file
starts empty instead of failing. -/
theorem load_failure_spec :
    load_todos FileState.missing = [] ∧ load_todos FileState.corrupt = [] ∧
    (initStore FileState.missing).todos = [] ∧ (initStore FileState.corrupt).todos = [] :=
  ⟨rfl, rfl, rfl, rfl⟩

/-- C9.  `update_todo` and `delete_todo` return true exactly when some
task has the given id; on false the store (list and file) is
untouched, and on true the file holds the persisted new list. -/
theorem missing_id_spec (s : Store) (id : Nat) (a : UpdateArgs) :
    ((update_todo id a s).1 = true ↔ s.todos.any (fun t => t.id == id) = true) ∧
    ((update_todo id a s).1 = false → (update_todo id a s).2 = s) ∧
    ((update_todo id a s).1 = true →
       (update_todo id a s).2.file = save_todos (update_todo id a s).2.todos) ∧
    ((delete_todo id s).1 = true ↔ s.todos.any (fun t => t.id == id) = true) ∧
    ((delete_todo id s).1 = false → (delete_todo id s).2 = s) ∧
    ((delete_todo id s).1 = true →
       (delete_todo id s).2.file = save_todos (delete_todo id s).2.todos) := by
  have hu := updateFirst_isSome id a s.todos
  have hd := deleteFirst_isSome id s.todos
  cases hru : updateFirst id a s.todos with
  | none =>
    rw [hru] at hu
    cases hrd : deleteFirst id s.todos with
    | none =>
      rw [hrd] at hd
      simp [update_todo, delete_todo, hru, hrd, ← hu]
    | some l' =>
      rw [hrd] at hd
      simp only [Option.isSome_none, Option.isSome_some] at hu hd
      rw [← hu] at hd
      exact Bool.noConfusion hd
  | some l' =>
    rw [hru] at hu
    cases hrd : deleteFirst id s.todos with
    | none =>
      rw [hrd] at hd
      simp only [Option.isSome_none, Option.isSome_some] at hu hd
      rw [← hu] at hd
      exact Bool.noConfusion hd
    | some l'' =>
      rw [hrd] at hd
      simp [update_todo, delete_todo, hru, hrd, ← hu]

/-- C9, witness: a present id (1 in `demoB`) updates and persists; a
missing id (99) makes `delete_todo` return false and leave the store
unchanged. -/
theorem missing_id_witness :
    ((update_todo 1 noArgs demoB).1 = true ↔ demoB.todos.any (fun t => t.id == 1) = true) ∧
    (update_todo 1 noArgs demoB).2.file = save_todos (update_todo 1 noArgs demoB).2.todos ∧
    (delete_todo 99 demoB).1 = false ∧
    (delete_todo 99 demoB).2 = demoB :=
  ⟨(missing_id_spec demoB 1 noArgs).1,
   (missing_id_spec demoB 1 noArgs).2.2.1 (by decide),
   by decide,
   (missing_id_spec demoB 99 noArgs).2.2.2.2.1 (by decide)⟩

/-- C10.  None of the query operations — filtered query, upcoming
window, by-date lookup, due-reminder check, statistics — changes the
store: the task list and the persisted file after the call are the
ones before it. -/
theorem queries_pure_spec :
    ∀ (s : Store) (c : Option Bool) (p : Option String) (today : Date) (w : Nat)
      (target : Date) (now : DateTime),
      (get_todos c p s).2 = s ∧ (get_upcoming_todos today w s).2 = s ∧
      (get_todos_by_date target s).2 = s ∧ (check_reminders now s).2 = s ∧
      (get_stats today s).2 = s :=
  fun _ _ _ _ _ _ _ => ⟨rfl, rfl, rfl, rfl, rfl⟩

end TodoProj
